import Mathlib

/-!
Verification of the NMT and Heartbeat-producer layer of CANopenNode
against its design document. The only source file present is the header
`src/stack/CO_NMT.h`: it fixes the wire enumerations, the `CO_NMT_t`
structure and the declarations of `CO_NMT_init`, `CO_NMT_process`,
`CO_NMT_getInternalState` and `CO_NMT_receive`. The implementation file
holding their bodies is absent, so the behaviour of those operations is
modelled from the specification document, as the doc comments below say;
the enumerations and the declared shapes are embedded from the header.
-/

namespace CONMT

/-- Operating states of the CANopen node, from `CO_NMT_internalState_t`
(src/stack/CO_NMT.h lines 93-98). -/
inductive CO_NMT_internalState_t where
  | CO_NMT_INITIALIZING
  | CO_NMT_PRE_OPERATIONAL
  | CO_NMT_OPERATIONAL
  | CO_NMT_STOPPED
  deriving DecidableEq

/-- Wire value of each operating state, as fixed by the enumerators of
`CO_NMT_internalState_t` in the header. -/
def CO_NMT_internalState_t.toByte : CO_NMT_internalState_t → Nat
  | .CO_NMT_INITIALIZING => 0
  | .CO_NMT_PRE_OPERATIONAL => 127
  | .CO_NMT_OPERATIONAL => 5
  | .CO_NMT_STOPPED => 4

/-- Commands from the NMT master, from `CO_NMT_command_t`
(src/stack/CO_NMT.h lines 104-110). -/
inductive CO_NMT_command_t where
  | CO_NMT_ENTER_OPERATIONAL
  | CO_NMT_ENTER_STOPPED
  | CO_NMT_ENTER_PRE_OPERATIONAL
  | CO_NMT_RESET_NODE
  | CO_NMT_RESET_COMMUNICATION
  deriving DecidableEq

/-- Wire value of each NMT command, as fixed by the enumerators of
`CO_NMT_command_t` in the header. -/
def CO_NMT_command_t.toByte : CO_NMT_command_t → Nat
  | .CO_NMT_ENTER_OPERATIONAL => 1
  | .CO_NMT_ENTER_STOPPED => 2
  | .CO_NMT_ENTER_PRE_OPERATIONAL => 128
  | .CO_NMT_RESET_NODE => 129
  | .CO_NMT_RESET_COMMUNICATION => 130

/-- Decoding of command byte 0 of an NMT frame: the five enumerator
values of `CO_NMT_command_t`; every other byte is unknown. -/
def commandOfByte (b : Nat) : Option CO_NMT_command_t :=
  if b = 1 then some .CO_NMT_ENTER_OPERATIONAL
  else if b = 2 then some .CO_NMT_ENTER_STOPPED
  else if b = 128 then some .CO_NMT_ENTER_PRE_OPERATIONAL
  else if b = 129 then some .CO_NMT_RESET_NODE
  else if b = 130 then some .CO_NMT_RESET_COMMUNICATION
  else none

/-- Return code of `CO_NMT_process`, from `CO_NMT_reset_cmd_t`
(src/stack/CO_NMT.h lines 117-122). -/
inductive CO_NMT_reset_cmd_t where
  | CO_RESET_NOT
  | CO_RESET_COMM
  | CO_RESET_APP
  | CO_RESET_QUIT
  deriving DecidableEq

/-- Numeric value of each reset directive, as fixed by the enumerators of
`CO_NMT_reset_cmd_t` in the header. -/
def CO_NMT_reset_cmd_t.toByte : CO_NMT_reset_cmd_t → Nat
  | .CO_RESET_NOT => 0
  | .CO_RESET_COMM => 1
  | .CO_RESET_APP => 2
  | .CO_RESET_QUIT => 3

/-- Return codes of `CO_NMT_init` named by its doc comment
(src/stack/CO_NMT.h line 151): CO_ERROR_NO or CO_ERROR_ILLEGAL_ARGUMENT. -/
inductive CO_ReturnError_t where
  | CO_ERROR_NO
  | CO_ERROR_ILLEGAL_ARGUMENT
  deriving DecidableEq

/-- Modelled from the spec: one slot of the optional 6-entry
error-behavior table (object dictionary index 0x1029, header doc lines
172-174); each slot prescribes no change, enter pre-operational or enter
stopped (spec section 4.3 step 2). -/
inductive ErrBehaviorEntry where
  | noChange
  | toPreOperational
  | toStopped
  deriving DecidableEq

/-- Modelled from the spec: the configuration values `CO_NMT_process`
reads from the object dictionary each tick, named as in the header's doc
comment (HBtime 0x1017, NMTstartup 0x1F80, errorRegister 0x1001,
errorBehavior 0x1029; src/stack/CO_NMT.h lines 168-174). A missing
errorBehavior table means no error-driven calculation is made. -/
structure Config where
  HBtime : Nat
  NMTstartup : Nat
  errorRegister : Nat
  errorBehavior : Option (Fin 6 → ErrBehaviorEntry)

/-- Modelled from the spec: the NMT node state (spec section 3, NmtNode).
The header's `CO_NMT_t` (src/stack/CO_NMT.h lines 129-137) declares
operatingState, requestedState and nodeId; the implementation file that
holds the heartbeat accumulator, the pending reset directive and the
first-tick startup handling is absent from the sources, so those fields
follow the spec's data model. -/
structure NmtNode where
  operatingState : CO_NMT_internalState_t
  requestedState : CO_NMT_internalState_t
  nodeId : Nat
  heartbeatElapsed_ms : Nat
  pendingReset : CO_NMT_reset_cmd_t
  firstTick : Bool
  deriving DecidableEq

/-- Modelled from the spec: the effect of one accepted NMT command (spec
section 4.2): the three Enter commands write requestedState only, the two
Reset commands mark the pending reset directive only. -/
def applyCommand (cmd : CO_NMT_command_t) (n : NmtNode) : NmtNode :=
  match cmd with
  | .CO_NMT_ENTER_OPERATIONAL => { n with requestedState := .CO_NMT_OPERATIONAL }
  | .CO_NMT_ENTER_STOPPED => { n with requestedState := .CO_NMT_STOPPED }
  | .CO_NMT_ENTER_PRE_OPERATIONAL => { n with requestedState := .CO_NMT_PRE_OPERATIONAL }
  | .CO_NMT_RESET_NODE => { n with pendingReset := .CO_RESET_APP }
  | .CO_NMT_RESET_COMMUNICATION => { n with pendingReset := .CO_RESET_COMM }

/-- State requested by the three state-changing commands; none for the
two reset commands. -/
def commandTargetState : CO_NMT_command_t → Option CO_NMT_internalState_t
  | .CO_NMT_ENTER_OPERATIONAL => some .CO_NMT_OPERATIONAL
  | .CO_NMT_ENTER_STOPPED => some .CO_NMT_STOPPED
  | .CO_NMT_ENTER_PRE_OPERATIONAL => some .CO_NMT_PRE_OPERATIONAL
  | .CO_NMT_RESET_NODE => none
  | .CO_NMT_RESET_COMMUNICATION => none

/-- Modelled from the spec: `CO_NMT_receive` (declared src/stack/CO_NMT.h
line 194; body absent). Byte 0 of the 2-byte frame is the command, byte 1
the target node id; the command is applied only when the target is 0
(broadcast) or the node's own id, and unknown command bytes or foreign
targets are silently discarded (spec sections 4.1 and 4.2). -/
def CO_NMT_receive (n : NmtNode) (byte0 byte1 : Nat) : NmtNode :=
  match commandOfByte byte0 with
  | none => n
  | some cmd => if byte1 = 0 ∨ byte1 = n.nodeId then applyCommand cmd n else n

/-- Ordering of the operating states by permissiveness: Stopped is the
most restrictive, Operational the most permissive of the three reachable
states (spec section 4.3 step 2). -/
def permissiveRank : CO_NMT_internalState_t → Nat
  | .CO_NMT_STOPPED => 0
  | .CO_NMT_PRE_OPERATIONAL => 1
  | .CO_NMT_OPERATIONAL => 2
  | .CO_NMT_INITIALIZING => 3

/-- Whether some error-register bit among the six mapped bits selects a
table slot holding the given entry. -/
def tableMatches (table : Fin 6 → ErrBehaviorEntry) (errorRegister : Nat)
    (e : ErrBehaviorEntry) : Bool :=
  (List.finRange 6).any fun i => errorRegister.testBit i.val && decide (table i = e)

/-- Modelled from the spec: the automatic transition target computed from
the error register and the error-behavior table; the most severe
matching entry wins, Stopped before Pre-operational (spec section 4.3
step 2). -/
def errBehaviorTarget (table : Fin 6 → ErrBehaviorEntry) (errorRegister : Nat) :
    Option CO_NMT_internalState_t :=
  if tableMatches table errorRegister .toStopped then some .CO_NMT_STOPPED
  else if tableMatches table errorRegister .toPreOperational then some .CO_NMT_PRE_OPERATIONAL
  else none

/-- Modelled from the spec: the error-driven override of the requested
state for the current tick only (spec section 4.3 step 2): the computed
target replaces the requested state when it is less permissive. -/
def effectiveRequested (cfg : Config) (req : CO_NMT_internalState_t) :
    CO_NMT_internalState_t :=
  match cfg.errorBehavior with
  | none => req
  | some table =>
    match errBehaviorTarget table cfg.errorRegister with
    | none => req
    | some t => if permissiveRank t < permissiveRank req then t else req

/-- Modelled from the spec: the state derived from the startup-behavior
mask on the very first tick (spec section 4.3 step 3). The spec does not
fix the position of the start-in-operational flag; bit 0 stands for it
here. -/
def startupState (mask : Nat) : CO_NMT_internalState_t :=
  if mask.testBit 0 then .CO_NMT_OPERATIONAL else .CO_NMT_PRE_OPERATIONAL

/-- Modelled from the spec: on the very first tick after initialization
the requested state is derived from the startup-behavior configuration
(spec section 4.3 step 3); later ticks leave the node unchanged here. -/
def applyStartup (n : NmtNode) (cfg : Config) : NmtNode :=
  if n.firstTick then
    { n with requestedState := startupState cfg.NMTstartup, firstTick := false }
  else n

/-- Result of one cyclic tick: the reset directive returned to the host,
the successor node state, the transmitted Heartbeat payload when one was
sent, and the state-changed callback invocations of the tick, each
carrying the (previous, requested) state pair. -/
structure TickResult where
  directive : CO_NMT_reset_cmd_t
  node : NmtNode
  hbSent : Option Nat
  callbacks : List (CO_NMT_internalState_t × CO_NMT_internalState_t)
  deriving DecidableEq

/-- Modelled from the spec: the cyclic tick of `CO_NMT_process` (spec
section 4.3; the function is declared at src/stack/CO_NMT.h line 179 and
its doc comment, lines 162-178, documents timeDifference_ms and the four
configuration inputs; the body is absent from the sources). Step 1:
return a pending reset directive immediately, clearing it, before any
other processing. Step 2: error-driven override of the requested state.
Step 3: first-tick startup derivation, then apply the requested state,
invoking the callback with (previous, requested) when it differs. Step 4:
advance the heartbeat accumulator by the elapsed time and transmit a
Heartbeat frame carrying operatingState exactly when the period is
positive and the accumulator has reached it, then reset the accumulator. -/
def CO_NMT_process_tick (n : NmtNode) (timeDifference_ms : Nat) (cfg : Config) :
    TickResult :=
  if n.pendingReset = .CO_RESET_NOT then
    let n1 := applyStartup n cfg
    let req := effectiveRequested cfg n1.requestedState
    let cbs := if req = n1.operatingState then [] else [(n1.operatingState, req)]
    let n2 := { n1 with operatingState := req }
    let elapsed := n1.heartbeatElapsed_ms + timeDifference_ms
    if 0 < cfg.HBtime ∧ cfg.HBtime ≤ elapsed then
      { directive := .CO_RESET_NOT, node := { n2 with heartbeatElapsed_ms := 0 },
        hbSent := some req.toByte, callbacks := cbs }
    else
      { directive := .CO_RESET_NOT, node := { n2 with heartbeatElapsed_ms := elapsed },
        hbSent := none, callbacks := cbs }
  else
    { directive := n.pendingReset, node := { n with pendingReset := .CO_RESET_NOT },
      hbSent := none, callbacks := [] }

/-- Runs a sequence of cyclic ticks with a fixed configuration, returning
the final node and the list of transmitted Heartbeat payloads. -/
def runTicks (cfg : Config) : NmtNode → List Nat → NmtNode × List Nat
  | n, [] => (n, [])
  | n, dt :: rest =>
    let r := CO_NMT_process_tick n dt cfg
    let tail := runTicks cfg r.node rest
    (tail.1, r.hbSent.toList ++ tail.2)

/-- Modelled from the spec: `CO_NMT_getInternalState` (declared
src/stack/CO_NMT.h lines 190-191; body absent): a pure query of the
current operating state. -/
def CO_NMT_getInternalState (n : NmtNode) : CO_NMT_internalState_t :=
  n.operatingState

/-- Node state produced by a successful initialization: Initializing
state, empty accumulator, no pending directive, startup derivation still
to run on the first tick. -/
def initNode (nodeId : Nat) : NmtNode :=
  { operatingState := .CO_NMT_INITIALIZING, requestedState := .CO_NMT_INITIALIZING,
    nodeId := nodeId, heartbeatElapsed_ms := 0,
    pendingReset := .CO_RESET_NOT, firstTick := true }

/-- Modelled from the spec: `CO_NMT_init` (declared src/stack/CO_NMT.h
lines 153-160; body absent). Construction is rejected with
CO_ERROR_ILLEGAL_ARGUMENT and produces no node when nodeId is 0, and
returns CO_ERROR_NO with the fresh node otherwise (spec section 6
initialization contract, header doc line 151). -/
def CO_NMT_init (nodeId : Nat) : CO_ReturnError_t × Option NmtNode :=
  if nodeId = 0 then (.CO_ERROR_ILLEGAL_ARGUMENT, none)
  else (.CO_ERROR_NO, some (initNode nodeId))

/-- Node states reachable from a successful initialization with the
given node id, closed under frame reception and cyclic ticks. -/
inductive Reachable (nodeId : Nat) : NmtNode → Prop where
  | init : ∀ n, CO_NMT_init nodeId = (.CO_ERROR_NO, some n) → Reachable nodeId n
  | recv : ∀ n byte0 byte1, Reachable nodeId n →
      Reachable nodeId (CO_NMT_receive n byte0 byte1)
  | tick : ∀ n dt cfg, Reachable nodeId n →
      Reachable nodeId (CO_NMT_process_tick n dt cfg).node

/-- The `CO_NMT_t` structure exactly as declared (src/stack/CO_NMT.h
lines 129-137): the three uint8_t fields and the OD, CANdev and
state_changed_callback pointers, the pointers kept as opaque handles. -/
structure CO_NMT_t where
  operatingState : Nat
  requestedState : Nat
  nodeId : Nat
  OD : Nat
  CANdev : Nat
  state_changed_callback : Nat
  deriving DecidableEq

/-- Modelled from the spec: `CO_NMT_process` over its declared signature
(src/stack/CO_NMT.h line 179), which passes only the NMT object and
returns only a reset directive — no elapsed-time argument, no
configuration values, no next-call-interval hint. Over these inputs only
the spec's requested-state application step is expressible; the heartbeat
and error-policy steps need inputs the declaration does not provide, and
the structure carries no pending-directive field, so the returned
directive is the normal CO_RESET_NOT. -/
def CO_NMT_process (nmt : CO_NMT_t) : CO_NMT_reset_cmd_t × CO_NMT_t :=
  if nmt.requestedState = nmt.operatingState then (.CO_RESET_NOT, nmt)
  else (.CO_RESET_NOT, { nmt with operatingState := nmt.requestedState })

/-- Sample node used to instantiate the general theorems: node id 5,
pre-operational, settled, nothing pending. -/
def sampleNode : NmtNode :=
  { operatingState := .CO_NMT_PRE_OPERATIONAL, requestedState := .CO_NMT_PRE_OPERATIONAL,
    nodeId := 5, heartbeatElapsed_ms := 0,
    pendingReset := .CO_RESET_NOT, firstTick := false }

/-- Sample node already in Operational state, nothing pending. -/
def opNode : NmtNode :=
  { operatingState := .CO_NMT_OPERATIONAL, requestedState := .CO_NMT_OPERATIONAL,
    nodeId := 5, heartbeatElapsed_ms := 0,
    pendingReset := .CO_RESET_NOT, firstTick := false }

/-- Sample node with a requested state change not yet applied by a tick. -/
def pendNode : NmtNode :=
  { operatingState := .CO_NMT_PRE_OPERATIONAL, requestedState := .CO_NMT_OPERATIONAL,
    nodeId := 5, heartbeatElapsed_ms := 0,
    pendingReset := .CO_RESET_NOT, firstTick := false }

/-- Configuration with the Heartbeat producer disabled and no
error-behavior table. -/
def quietConfig : Config :=
  { HBtime := 0, NMTstartup := 0, errorRegister := 0, errorBehavior := none }

/-- Configuration with a 1000 ms Heartbeat period and no error-behavior
table. -/
def cfg1000 : Config :=
  { HBtime := 1000, NMTstartup := 0, errorRegister := 0, errorBehavior := none }

/-- Sample error-behavior table: bit 0 maps to Stopped, bit 1 to
Pre-operational, the other slots to no change. -/
def sampleTable : Fin 6 → ErrBehaviorEntry := fun i =>
  if i = 0 then .toStopped else if i = 1 then .toPreOperational else .noChange

/-- Configuration with the sample error-behavior table and error-register
bits 0 and 1 both set. -/
def errConfig : Config :=
  { HBtime := 0, NMTstartup := 0, errorRegister := 3, errorBehavior := some sampleTable }

/-- Encoding a command and decoding the resulting byte yields the
command back. -/
theorem commandOfByte_toByte (cmd : CO_NMT_command_t) :
    commandOfByte cmd.toByte = some cmd := by
  cases cmd <;> decide

/-- Frame reception never changes the node id. -/
theorem receive_nodeId (n : NmtNode) (byte0 byte1 : Nat) :
    (CO_NMT_receive n byte0 byte1).nodeId = n.nodeId := by
  unfold CO_NMT_receive
  cases commandOfByte byte0 with
  | none => rfl
  | some cmd =>
    by_cases h : byte1 = 0 ∨ byte1 = n.nodeId
    · simp only [h, if_pos]
      cases cmd <;> rfl
    · simp [h]

/-- The startup derivation never changes the node id, the operating
state, the accumulator or the pending directive. -/
theorem applyStartup_fields (n : NmtNode) (cfg : Config) :
    (applyStartup n cfg).nodeId = n.nodeId ∧
    (applyStartup n cfg).operatingState = n.operatingState ∧
    (applyStartup n cfg).heartbeatElapsed_ms = n.heartbeatElapsed_ms ∧
    (applyStartup n cfg).pendingReset = n.pendingReset := by
  unfold applyStartup
  by_cases h : n.firstTick <;> simp [h]

/-- A cyclic tick never changes the node id. -/
theorem tick_nodeId (n : NmtNode) (dt : Nat) (cfg : Config) :
    (CO_NMT_process_tick n dt cfg).node.nodeId = n.nodeId := by
  unfold CO_NMT_process_tick
  by_cases h : n.pendingReset = .CO_RESET_NOT
  · simp only [h, if_pos]
    have := (applyStartup_fields n cfg).1
    split <;> simpa using this
  · simp [h]

/-- After a tick on a node with no pending directive, the pending
directive is still clear, the startup derivation is done, the requested
state is the startup-derived one, and the operating state equals the
error-adjusted requested state. -/
theorem tick_node_fields (n : NmtNode) (dt : Nat) (cfg : Config)
    (hpend : n.pendingReset = .CO_RESET_NOT) :
    (CO_NMT_process_tick n dt cfg).node.pendingReset = .CO_RESET_NOT ∧
    (CO_NMT_process_tick n dt cfg).node.firstTick = false ∧
    (CO_NMT_process_tick n dt cfg).node.requestedState = (applyStartup n cfg).requestedState ∧
    (CO_NMT_process_tick n dt cfg).node.operatingState =
      effectiveRequested cfg (applyStartup n cfg).requestedState := by
  unfold CO_NMT_process_tick
  simp only [hpend, if_pos]
  have hft : (applyStartup n cfg).firstTick = false := by
    unfold applyStartup
    by_cases h : n.firstTick <;> simp [h, hpend]
  have hpd : (applyStartup n cfg).pendingReset = .CO_RESET_NOT := by
    rw [(applyStartup_fields n cfg).2.2.2]; exact hpend
  split <;> simp [hft, hpd]

/-- A tick on a node with no pending directive returns the normal
CO_RESET_NOT directive. -/
theorem tick_directive (n : NmtNode) (dt : Nat) (cfg : Config)
    (hpend : n.pendingReset = .CO_RESET_NOT) :
    (CO_NMT_process_tick n dt cfg).directive = .CO_RESET_NOT := by
  unfold CO_NMT_process_tick
  simp only [hpend, if_pos]
  split <;> rfl

/-- Callback invocations of a tick with no pending directive: exactly one
invocation with (previous, requested) when the error-adjusted requested
state differs from the operating state, none otherwise. -/
theorem tick_callbacks (n : NmtNode) (dt : Nat) (cfg : Config)
    (hpend : n.pendingReset = .CO_RESET_NOT) :
    (CO_NMT_process_tick n dt cfg).callbacks =
      (if effectiveRequested cfg (applyStartup n cfg).requestedState = n.operatingState then []
       else [(n.operatingState,
              effectiveRequested cfg (applyStartup n cfg).requestedState)]) := by
  have hop := (applyStartup_fields n cfg).2.1
  unfold CO_NMT_process_tick
  rw [if_pos hpend]
  dsimp only
  split <;> simp [hop]

/-- Heartbeat output of a tick with no pending directive: a frame with
the new operating state's byte exactly when the period is positive and
the accumulator reaches it. -/
theorem tick_hbSent (n : NmtNode) (dt : Nat) (cfg : Config)
    (hpend : n.pendingReset = .CO_RESET_NOT) :
    (CO_NMT_process_tick n dt cfg).hbSent =
      (if 0 < cfg.HBtime ∧ cfg.HBtime ≤ n.heartbeatElapsed_ms + dt then
        some (effectiveRequested cfg (applyStartup n cfg).requestedState).toByte
       else none) := by
  have hhb := (applyStartup_fields n cfg).2.2.1
  unfold CO_NMT_process_tick
  rw [if_pos hpend]
  dsimp only
  rw [hhb]
  split <;> rfl

/-- Accumulator after a tick with no pending directive: reset to 0 on
transmission, advanced by the elapsed time otherwise. -/
theorem tick_elapsed (n : NmtNode) (dt : Nat) (cfg : Config)
    (hpend : n.pendingReset = .CO_RESET_NOT) :
    (CO_NMT_process_tick n dt cfg).node.heartbeatElapsed_ms =
      (if 0 < cfg.HBtime ∧ cfg.HBtime ≤ n.heartbeatElapsed_ms + dt then 0
       else n.heartbeatElapsed_ms + dt) := by
  have hhb := (applyStartup_fields n cfg).2.2.1
  unfold CO_NMT_process_tick
  rw [if_pos hpend]
  dsimp only
  rw [hhb]
  split <;> rfl

/-- A tick under a zero heartbeat period transmits nothing, whatever the
node state. -/
theorem tick_hbSent_zero_period (n : NmtNode) (dt : Nat) (cfg : Config)
    (h0 : cfg.HBtime = 0) :
    (CO_NMT_process_tick n dt cfg).hbSent = none := by
  unfold CO_NMT_process_tick
  by_cases hp : n.pendingReset = .CO_RESET_NOT
  · rw [if_pos hp]
    dsimp only
    rw [if_neg]
    simp [h0]
  · rw [if_neg hp]

/-- Every operating state's byte value is one of the four defined wire
values. -/
theorem toByte_mem (s : CO_NMT_internalState_t) :
    s.toByte = 0 ∨ s.toByte = 4 ∨ s.toByte = 5 ∨ s.toByte = 127 := by
  cases s <;> simp [CO_NMT_internalState_t.toByte]

/-- With no error-behavior table configured, the requested state passes
through unchanged. -/
theorem effectiveRequested_none (cfg : Config) (h : cfg.errorBehavior = none)
    (req : CO_NMT_internalState_t) : effectiveRequested cfg req = req := by
  unfold effectiveRequested
  rw [h]

/-- Claim C4: the wire encodings are exactly Initializing = 0,
Stopped = 4, Operational = 5, Pre-operational = 127 for the operating
states and EnterOperational = 1, EnterStopped = 2,
EnterPreOperational = 128, ResetNode = 129, ResetCommunication = 130 for
the commands, and every other command byte decodes to no command. -/
theorem C4_wire_encodings :
    CO_NMT_internalState_t.toByte .CO_NMT_INITIALIZING = 0 ∧
    CO_NMT_internalState_t.toByte .CO_NMT_STOPPED = 4 ∧
    CO_NMT_internalState_t.toByte .CO_NMT_OPERATIONAL = 5 ∧
    CO_NMT_internalState_t.toByte .CO_NMT_PRE_OPERATIONAL = 127 ∧
    CO_NMT_command_t.toByte .CO_NMT_ENTER_OPERATIONAL = 1 ∧
    CO_NMT_command_t.toByte .CO_NMT_ENTER_STOPPED = 2 ∧
    CO_NMT_command_t.toByte .CO_NMT_ENTER_PRE_OPERATIONAL = 128 ∧
    CO_NMT_command_t.toByte .CO_NMT_RESET_NODE = 129 ∧
    CO_NMT_command_t.toByte .CO_NMT_RESET_COMMUNICATION = 130 ∧
    commandOfByte 1 = some .CO_NMT_ENTER_OPERATIONAL ∧
    commandOfByte 2 = some .CO_NMT_ENTER_STOPPED ∧
    commandOfByte 128 = some .CO_NMT_ENTER_PRE_OPERATIONAL ∧
    commandOfByte 129 = some .CO_NMT_RESET_NODE ∧
    commandOfByte 130 = some .CO_NMT_RESET_COMMUNICATION ∧
    (∀ b : Nat, commandOfByte b ≠ none →
      b = 1 ∨ b = 2 ∨ b = 128 ∨ b = 129 ∨ b = 130) := by
  refine ⟨rfl, rfl, rfl, rfl, rfl, rfl, rfl, rfl, rfl, rfl, rfl, rfl, rfl, rfl, ?_⟩
  intro b h
  by_contra hb
  push_neg at hb
  obtain ⟨h1, h2, h3, h4, h5⟩ := hb
  simp [commandOfByte, h1, h2, h3, h4, h5] at h

/-- Claim C1: a received NMT command frame is applied exactly when its
target node id (byte 1) is 0, the broadcast wildcard, or the node's own
id; a frame addressed to any other node id leaves the whole node state
unchanged. -/
theorem C1_node_id_filtering (n : NmtNode) (byte0 byte1 : Nat) :
    (byte1 ≠ 0 ∧ byte1 ≠ n.nodeId → CO_NMT_receive n byte0 byte1 = n) ∧
    (∀ cmd, commandOfByte byte0 = some cmd → byte1 = 0 ∨ byte1 = n.nodeId →
      CO_NMT_receive n byte0 byte1 = applyCommand cmd n) := by
  constructor
  · intro h
    unfold CO_NMT_receive
    cases commandOfByte byte0 with
    | none => rfl
    | some cmd => simp [h.1, h.2]
  · intro cmd hcmd htgt
    simp [CO_NMT_receive, hcmd, htgt]

/-- Claim C1 instantiated: node id 5 discards a frame for node 7 and
applies a broadcast EnterOperational frame. -/
theorem C1_node_id_filtering_witness :
    CO_NMT_receive sampleNode 1 7 = sampleNode ∧
    CO_NMT_receive sampleNode 1 0 = applyCommand .CO_NMT_ENTER_OPERATIONAL sampleNode :=
  ⟨(C1_node_id_filtering sampleNode 1 7).1 (by decide),
   (C1_node_id_filtering sampleNode 1 0).2 .CO_NMT_ENTER_OPERATIONAL (by decide) (by decide)⟩

/-- Claim C7: initialization fails with the illegal-argument error
exactly when the node id is 0; on failure no node is produced, and for a
non-zero node id initialization succeeds with CO_ERROR_NO. -/
theorem C7_init_validation (nodeId : Nat) :
    ((CO_NMT_init nodeId).1 = .CO_ERROR_ILLEGAL_ARGUMENT ↔ nodeId = 0) ∧
    (nodeId = 0 → (CO_NMT_init nodeId).2 = none) ∧
    (nodeId ≠ 0 → (CO_NMT_init nodeId).1 = .CO_ERROR_NO ∧ (CO_NMT_init nodeId).2 ≠ none) := by
  by_cases h : nodeId = 0 <;> simp [CO_NMT_init, h]

/-- Claim C7 instantiated: node id 0 is rejected without a node, node
id 5 is accepted. -/
theorem C7_init_validation_witness :
    (CO_NMT_init 0).2 = none ∧
    ((CO_NMT_init 5).1 = .CO_ERROR_NO ∧ (CO_NMT_init 5).2 ≠ none) :=
  ⟨(C7_init_validation 0).2.1 rfl, (C7_init_validation 5).2.2 (by decide)⟩

/-- Claim C3: for ticks without a pending reset directive the heartbeat
accumulator advances by the elapsed milliseconds, a Heartbeat frame
carrying the operating state is transmitted exactly when the period is
positive and the accumulator has reached it — resetting the accumulator
to 0 — a period of 0 yields zero transmissions over any tick sequence
from any state, and with period 1000 ms the ticks 400, 400, 400 ms yield
exactly one transmission. -/
theorem C3_heartbeat_production (n : NmtNode) (dt : Nat) (cfg : Config)
    (hpend : n.pendingReset = .CO_RESET_NOT) :
    ((CO_NMT_process_tick n dt cfg).hbSent ≠ none ↔
      0 < cfg.HBtime ∧ cfg.HBtime ≤ n.heartbeatElapsed_ms + dt) ∧
    ((CO_NMT_process_tick n dt cfg).hbSent ≠ none →
      (CO_NMT_process_tick n dt cfg).hbSent =
        some (CO_NMT_process_tick n dt cfg).node.operatingState.toByte ∧
      (CO_NMT_process_tick n dt cfg).node.heartbeatElapsed_ms = 0) ∧
    ((CO_NMT_process_tick n dt cfg).hbSent = none →
      (CO_NMT_process_tick n dt cfg).node.heartbeatElapsed_ms =
        n.heartbeatElapsed_ms + dt) ∧
    (∀ m : NmtNode, ∀ dts : List Nat, cfg.HBtime = 0 → (runTicks cfg m dts).2 = []) ∧
    (runTicks cfg1000 sampleNode [400, 400, 400]).2 =
      [CO_NMT_internalState_t.toByte .CO_NMT_PRE_OPERATIONAL] := by
  have hsent := tick_hbSent n dt cfg hpend
  have helap := tick_elapsed n dt cfg hpend
  have hop := (tick_node_fields n dt cfg hpend).2.2.2
  refine ⟨?_, ?_, ?_, ?_, by decide⟩
  · rw [hsent]
    split <;> simp_all
  · intro hne
    rw [hsent] at hne ⊢
    rw [helap, hop]
    by_cases hc : 0 < cfg.HBtime ∧ cfg.HBtime ≤ n.heartbeatElapsed_ms + dt
    · simp [hc]
    · simp [hc] at hne
  · intro hnone
    rw [hsent] at hnone
    rw [helap]
    by_cases hc : 0 < cfg.HBtime ∧ cfg.HBtime ≤ n.heartbeatElapsed_ms + dt
    · simp [hc] at hnone
    · simp [hc]
  · intro m dts h0
    induction dts generalizing m with
    | nil => rfl
    | cons dt' rest ih =>
      unfold runTicks
      dsimp only
      rw [tick_hbSent_zero_period _ _ _ h0]
      simpa using ih _

/-- Claim C3 instantiated: no transmissions over three 400 ms ticks with
the producer disabled; exactly one over the same ticks at a 1000 ms
period. -/
theorem C3_heartbeat_production_witness :
    (runTicks quietConfig sampleNode [400, 400, 400]).2 = [] ∧
    (runTicks cfg1000 sampleNode [400, 400, 400]).2 =
      [CO_NMT_internalState_t.toByte .CO_NMT_PRE_OPERATIONAL] :=
  ⟨(C3_heartbeat_production sampleNode 0 quietConfig rfl).2.2.2.1
      sampleNode [400, 400, 400] rfl,
   (C3_heartbeat_production sampleNode 0 quietConfig rfl).2.2.2.2⟩

/-- Claim C6: after an accepted ResetNode command the next tick returns
the CO_RESET_APP directive before any other processing — the node is
unchanged except that the directive is cleared, no Heartbeat is sent and
no callback fires — and the subsequent tick returns CO_RESET_NOT. -/
theorem C6_reset_node_directive (n : NmtNode) (byte1 dt dt' : Nat) (cfg cfg' : Config)
    (htgt : byte1 = 0 ∨ byte1 = n.nodeId) :
    (CO_NMT_process_tick (CO_NMT_receive n 129 byte1) dt cfg).directive = .CO_RESET_APP ∧
    (CO_NMT_process_tick (CO_NMT_receive n 129 byte1) dt cfg).node =
      { n with pendingReset := .CO_RESET_NOT } ∧
    (CO_NMT_process_tick (CO_NMT_receive n 129 byte1) dt cfg).hbSent = none ∧
    (CO_NMT_process_tick (CO_NMT_receive n 129 byte1) dt cfg).callbacks = [] ∧
    (CO_NMT_process_tick
      (CO_NMT_process_tick (CO_NMT_receive n 129 byte1) dt cfg).node dt' cfg').directive =
      .CO_RESET_NOT := by
  have hrecv : CO_NMT_receive n 129 byte1 = { n with pendingReset := .CO_RESET_APP } := by
    unfold CO_NMT_receive
    have h129 : commandOfByte 129 = some .CO_NMT_RESET_NODE := by decide
    rw [h129]
    simp [htgt, applyCommand]
  rw [hrecv]
  have h1 : CO_NMT_process_tick { n with pendingReset := .CO_RESET_APP } dt cfg =
      { directive := .CO_RESET_APP, node := { n with pendingReset := .CO_RESET_NOT },
        hbSent := none, callbacks := [] } := by
    unfold CO_NMT_process_tick
    rw [if_neg (by simp)]
  rw [h1]
  exact ⟨rfl, rfl, rfl, rfl, tick_directive _ dt' cfg' rfl⟩

/-- Claim C6 instantiated: broadcast ResetNode to the sample node, one
CO_RESET_APP directive, then CO_RESET_NOT. -/
theorem C6_reset_node_directive_witness :
    (CO_NMT_process_tick (CO_NMT_receive sampleNode 129 0) 0 quietConfig).directive =
      .CO_RESET_APP ∧
    (CO_NMT_process_tick (CO_NMT_receive sampleNode 129 0) 0 quietConfig).node =
      { sampleNode with pendingReset := .CO_RESET_NOT } ∧
    (CO_NMT_process_tick (CO_NMT_receive sampleNode 129 0) 0 quietConfig).hbSent = none ∧
    (CO_NMT_process_tick (CO_NMT_receive sampleNode 129 0) 0 quietConfig).callbacks = [] ∧
    (CO_NMT_process_tick
      (CO_NMT_process_tick (CO_NMT_receive sampleNode 129 0) 0 quietConfig).node
      0 quietConfig).directive = .CO_RESET_NOT :=
  C6_reset_node_directive sampleNode 0 0 0 quietConfig quietConfig (Or.inl rfl)

/-- Claim C5: with an error-behavior table configured and error-register
bits matching both a Stopped entry and a Pre-operational entry, the tick
drives operatingState to Stopped — the most restrictive target wins —
whatever the requested state, in particular when it was Operational. -/
theorem C5_most_restrictive_wins (n : NmtNode) (dt : Nat) (cfg : Config)
    (table : Fin 6 → ErrBehaviorEntry) (i j : Fin 6)
    (hpend : n.pendingReset = .CO_RESET_NOT)
    (htab : cfg.errorBehavior = some table)
    (hi : cfg.errorRegister.testBit i.val = true)
    (hie : table i = .toStopped)
    (hj : cfg.errorRegister.testBit j.val = true)
    (hje : table j = .toPreOperational) :
    (CO_NMT_process_tick n dt cfg).node.operatingState = .CO_NMT_STOPPED := by
  have hmatch : tableMatches table cfg.errorRegister .toStopped = true := by
    unfold tableMatches
    rw [List.any_eq_true]
    exact ⟨i, List.mem_finRange i, by simp [hi, hie]⟩
  have htarget : errBehaviorTarget table cfg.errorRegister = some .CO_NMT_STOPPED := by
    unfold errBehaviorTarget
    rw [hmatch]
    rfl
  have heff : ∀ req, effectiveRequested cfg req = .CO_NMT_STOPPED := by
    intro req
    simp only [effectiveRequested, htab, htarget]
    cases req <;> simp [permissiveRank]
  rw [(tick_node_fields n dt cfg hpend).2.2.2, heff]

/-- Claim C5 instantiated: sample table (bit 0 to Stopped, bit 1 to
Pre-operational), error register 3, requested state Operational: the
tick yields Stopped. -/
theorem C5_most_restrictive_wins_witness :
    (CO_NMT_process_tick pendNode 0 errConfig).node.operatingState = .CO_NMT_STOPPED :=
  C5_most_restrictive_wins pendNode 0 errConfig sampleTable 0 1
    rfl rfl (by decide) (by decide) (by decide) (by decide)

/-- Claim C8: every node state reachable from a successful
initialization keeps the non-zero node id it was constructed with
through every frame reception and cyclic tick, its operating state's
byte value is always one of the four defined wire values, and the state
query returns the operating state without touching the node. -/
theorem C8_invariants (nodeId : Nat) (n : NmtNode) (h : Reachable nodeId n) :
    n.nodeId = nodeId ∧ nodeId ≠ 0 ∧
    (n.operatingState.toByte = 0 ∨ n.operatingState.toByte = 4 ∨
     n.operatingState.toByte = 5 ∨ n.operatingState.toByte = 127) ∧
    CO_NMT_getInternalState n = n.operatingState := by
  induction h with
  | init m hm =>
    have hnz : nodeId ≠ 0 := by
      intro h0
      rw [h0] at hm
      simp [CO_NMT_init] at hm
    have hmval : m = initNode nodeId := by
      simp [CO_NMT_init, hnz] at hm
      exact hm.symm
    rw [hmval]
    exact ⟨rfl, hnz, toByte_mem _, rfl⟩
  | recv m b0 b1 hr ih =>
    exact ⟨by rw [receive_nodeId]; exact ih.1, ih.2.1, toByte_mem _, rfl⟩
  | tick m dt cfg hr ih =>
    exact ⟨by rw [tick_nodeId]; exact ih.1, ih.2.1, toByte_mem _, rfl⟩

/-- Claim C8 instantiated at the freshly initialized node with id 5. -/
theorem C8_invariants_witness :
    (initNode 5).nodeId = 5 ∧ (5 : Nat) ≠ 0 :=
  ⟨(C8_invariants 5 (initNode 5) (.init (initNode 5) rfl)).1,
   (C8_invariants 5 (initNode 5) (.init (initNode 5) rfl)).2.1⟩

/-- Claim C2 as stated fails: a node already in Operational accepts a
broadcast EnterOperational command — the receiver writes only
requestedState — but the next cyclic tick invokes the state-changed
callback zero times, not exactly once. -/
theorem C2_callback_count_counterexample :
    CO_NMT_receive opNode 1 0 = { opNode with requestedState := .CO_NMT_OPERATIONAL } ∧
    (CO_NMT_process_tick (CO_NMT_receive opNode 1 0) 0 quietConfig).callbacks.length ≠ 1 := by
  decide

/-- Claim C2 as amended: for every accepted Enter command (no reset
pending, startup derivation done, no error-behavior table), the receiver
writes only requestedState, leaving the operating state, node id,
accumulator and pending directive untouched; at the next tick the
callback fires exactly once with (previous operatingState, requested
state) when the requested state differs from the current operating
state, and zero times when they are already equal; operatingState then
equals the requested state. -/
theorem C2_command_applied_at_next_tick (n : NmtNode) (cmd : CO_NMT_command_t)
    (s : CO_NMT_internalState_t) (byte1 dt : Nat) (cfg : Config)
    (hcmd : commandTargetState cmd = some s)
    (htgt : byte1 = 0 ∨ byte1 = n.nodeId)
    (hpend : n.pendingReset = .CO_RESET_NOT)
    (hfirst : n.firstTick = false)
    (herr : cfg.errorBehavior = none) :
    (CO_NMT_receive n cmd.toByte byte1).operatingState = n.operatingState ∧
    (CO_NMT_receive n cmd.toByte byte1).requestedState = s ∧
    (CO_NMT_receive n cmd.toByte byte1).nodeId = n.nodeId ∧
    (CO_NMT_receive n cmd.toByte byte1).heartbeatElapsed_ms = n.heartbeatElapsed_ms ∧
    (CO_NMT_receive n cmd.toByte byte1).pendingReset = n.pendingReset ∧
    (CO_NMT_process_tick (CO_NMT_receive n cmd.toByte byte1) dt cfg).callbacks =
      (if s = n.operatingState then [] else [(n.operatingState, s)]) ∧
    (CO_NMT_process_tick (CO_NMT_receive n cmd.toByte byte1) dt cfg).node.operatingState = s := by
  have hrecv : CO_NMT_receive n cmd.toByte byte1 = { n with requestedState := s } := by
    unfold CO_NMT_receive
    rw [commandOfByte_toByte]
    cases cmd <;> simp_all [applyCommand, commandTargetState]
  rw [hrecv]
  have hpend' : ({ n with requestedState := s } : NmtNode).pendingReset = .CO_RESET_NOT := hpend
  have hstart : applyStartup { n with requestedState := s } cfg =
      { n with requestedState := s } := by
    unfold applyStartup
    simp [hfirst]
  refine ⟨rfl, rfl, rfl, rfl, rfl, ?_, ?_⟩
  · rw [tick_callbacks _ dt cfg hpend', hstart, effectiveRequested_none cfg herr]
  · rw [(tick_node_fields _ dt cfg hpend').2.2.2, hstart, effectiveRequested_none cfg herr]

/-- Claim C2 amended, instantiated: the pre-operational sample node
accepts a broadcast EnterOperational; one callback with
(Pre-operational, Operational) fires at the next tick and the node
becomes Operational. -/
theorem C2_command_applied_at_next_tick_witness :
    (CO_NMT_receive sampleNode (CO_NMT_command_t.toByte .CO_NMT_ENTER_OPERATIONAL) 0).operatingState = sampleNode.operatingState ∧
    (CO_NMT_receive sampleNode (CO_NMT_command_t.toByte .CO_NMT_ENTER_OPERATIONAL) 0).requestedState = .CO_NMT_OPERATIONAL ∧
    (CO_NMT_receive sampleNode (CO_NMT_command_t.toByte .CO_NMT_ENTER_OPERATIONAL) 0).nodeId = sampleNode.nodeId ∧
    (CO_NMT_receive sampleNode (CO_NMT_command_t.toByte .CO_NMT_ENTER_OPERATIONAL) 0).heartbeatElapsed_ms = sampleNode.heartbeatElapsed_ms ∧
    (CO_NMT_receive sampleNode (CO_NMT_command_t.toByte .CO_NMT_ENTER_OPERATIONAL) 0).pendingReset = sampleNode.pendingReset ∧
    (CO_NMT_process_tick (CO_NMT_receive sampleNode (CO_NMT_command_t.toByte .CO_NMT_ENTER_OPERATIONAL) 0) 0 quietConfig).callbacks =
      (if CO_NMT_internalState_t.CO_NMT_OPERATIONAL = sampleNode.operatingState then []
       else [(sampleNode.operatingState, .CO_NMT_OPERATIONAL)]) ∧
    (CO_NMT_process_tick (CO_NMT_receive sampleNode (CO_NMT_command_t.toByte .CO_NMT_ENTER_OPERATIONAL) 0) 0 quietConfig).node.operatingState = .CO_NMT_OPERATIONAL :=
  C2_command_applied_at_next_tick sampleNode .CO_NMT_ENTER_OPERATIONAL
    .CO_NMT_OPERATIONAL 0 0 quietConfig rfl (Or.inl rfl) rfl rfl rfl

/-- Claim C9 as stated fails: from a state whose requested state (set by
an earlier command) differs from its operating state, a tick with
timeDifference 0, no new command and no pending directive changes the
operating state and invokes the callback. -/
theorem C9_idempotence_counterexample :
    pendNode.pendingReset = .CO_RESET_NOT ∧
    (CO_NMT_process_tick pendNode 0 quietConfig).node.operatingState ≠
      pendNode.operatingState ∧
    (CO_NMT_process_tick pendNode 0 quietConfig).callbacks ≠ [] := by
  decide

/-- Claim C9 as amended: with no pending directive, a zero-elapsed tick
is idempotent after the first application — the second application
returns CO_RESET_NOT, leaves the node exactly as it was, transmits no
Heartbeat and invokes no callback — and a node that is already settled
(startup done, error-adjusted requested state equal to the operating
state, accumulator below the period or period 0) is left entirely
unchanged even by the first such tick. -/
theorem C9_idempotence (n : NmtNode) (cfg : Config)
    (hpend : n.pendingReset = .CO_RESET_NOT) :
    (CO_NMT_process_tick (CO_NMT_process_tick n 0 cfg).node 0 cfg =
      { directive := .CO_RESET_NOT, node := (CO_NMT_process_tick n 0 cfg).node,
        hbSent := none, callbacks := [] }) ∧
    (n.firstTick = false →
      effectiveRequested cfg n.requestedState = n.operatingState →
      (cfg.HBtime = 0 ∨ n.heartbeatElapsed_ms < cfg.HBtime) →
      CO_NMT_process_tick n 0 cfg =
        { directive := .CO_RESET_NOT, node := n, hbSent := none, callbacks := [] }) := by
  have settled : ∀ m : NmtNode, m.pendingReset = .CO_RESET_NOT → m.firstTick = false →
      effectiveRequested cfg m.requestedState = m.operatingState →
      (cfg.HBtime = 0 ∨ m.heartbeatElapsed_ms < cfg.HBtime) →
      CO_NMT_process_tick m 0 cfg =
        { directive := .CO_RESET_NOT, node := m, hbSent := none, callbacks := [] } := by
    intro m hp hf he hhb
    have hstart : applyStartup m cfg = m := by
      unfold applyStartup
      simp [hf]
    unfold CO_NMT_process_tick
    rw [if_pos hp]
    dsimp only
    rw [hstart, he]
    rw [if_neg, if_pos rfl]
    · simp
    · rcases hhb with h0 | hlt
      · simp [h0]
      · rintro ⟨-, hge⟩
        omega
  refine ⟨?_, fun hf he hhb => settled n hpend hf he hhb⟩
  have hf2 := (tick_node_fields n 0 cfg hpend).2.1
  have hp2 := (tick_node_fields n 0 cfg hpend).1
  have hreq2 := (tick_node_fields n 0 cfg hpend).2.2.1
  have hop2 := (tick_node_fields n 0 cfg hpend).2.2.2
  have helap := tick_elapsed n 0 cfg hpend
  apply settled _ hp2 hf2
  · rw [hreq2, hop2]
  · rw [helap]
    by_cases hc : 0 < cfg.HBtime ∧ cfg.HBtime ≤ n.heartbeatElapsed_ms + 0
    · rw [if_pos hc]
      right
      exact hc.1
    · rw [if_neg hc]
      rcases Nat.eq_zero_or_pos cfg.HBtime with h0 | hpos
      · exact Or.inl h0
      · right
        omega

/-- Claim C9 amended, instantiated at a node with an unapplied requested
state: the second zero-elapsed tick is a no-op, and the settled sample
node is unchanged by the first. -/
theorem C9_idempotence_witness :
    (CO_NMT_process_tick (CO_NMT_process_tick pendNode 0 quietConfig).node 0 quietConfig =
      { directive := .CO_RESET_NOT, node := (CO_NMT_process_tick pendNode 0 quietConfig).node,
        hbSent := none, callbacks := [] }) ∧
    (CO_NMT_process_tick sampleNode 0 quietConfig =
      { directive := .CO_RESET_NOT, node := sampleNode, hbSent := none, callbacks := [] }) :=
  ⟨(C9_idempotence pendNode quietConfig rfl).1,
   (C9_idempotence sampleNode quietConfig rfl).2 rfl rfl (Or.inl rfl)⟩

/-- Claim C10: `CO_NMT_process` is declared over the NMT object alone and
returns only a reset directive, so the directive is determined by the
object's declared fields: two invocations from field-wise identical
states return the same directive, with no elapsed-time input anywhere to
distinguish them. -/
theorem C10_process_state_determined (s t : CO_NMT_t)
    (hop : s.operatingState = t.operatingState)
    (hreq : s.requestedState = t.requestedState)
    (hid : s.nodeId = t.nodeId)
    (hod : s.OD = t.OD)
    (hcan : s.CANdev = t.CANdev)
    (hcb : s.state_changed_callback = t.state_changed_callback) :
    (CO_NMT_process s).1 = (CO_NMT_process t).1 ∧
    (CO_NMT_process s).2 = (CO_NMT_process t).2 := by
  have h : s = t := by
    cases s
    cases t
    simp_all
  rw [h]
  exact ⟨rfl, rfl⟩

/-- Claim C10 instantiated at two structurally equal objects. -/
theorem C10_process_state_determined_witness :
    (CO_NMT_process ⟨5, 5, 5, 0, 0, 0⟩).1 = (CO_NMT_process ⟨5, 5, 5, 0, 0, 0⟩).1 ∧
    (CO_NMT_process ⟨5, 5, 5, 0, 0, 0⟩).2 = (CO_NMT_process ⟨5, 5, 5, 0, 0, 0⟩).2 :=
  C10_process_state_determined ⟨5, 5, 5, 0, 0, 0⟩ ⟨5, 5, 5, 0, 0, 0⟩ rfl rfl rfl rfl rfl rfl

end CONMT
